import Mathlib

/-!
Shallow embedding of the PDF-to-audiobook reader
(`app.py`, `audio_reader.py`, `pdf_handler.py`, `config.py`).

Python objects are modelled as Lean structures, Python ints as `Int`,
floats (times, sizes in MB, volume) as `ℚ`, fallible library calls as
explicit outcome values supplied by oracles.  Side effects that matter to
the claims (speech-synthesis calls, skip notices) are recorded in an event
trace carried through the state.
-/

namespace PDFAudio

/-- Result of a Python call that may raise: either a value or an exception. -/
inductive PyResult (α : Type) where
  | ok (a : α)
  | exn
deriving DecidableEq

/-- Python list indexing `l[i]` for an `int` index: non-negative indexes from
the front, negative indexes from the back, out of range raises (`none`). -/
def pyIndex {α : Type} (l : List α) (i : Int) : Option α :=
  if 0 ≤ i then l.get? i.toNat
  else if 0 ≤ i + l.length then l.get? (i + l.length).toNat
  else none

/-- Python `str.startswith`: a character-wise prefix test.  (The standard
library's own prefix test is opaque to kernel reduction, so the embedding
carries its list-of-characters definition.) -/
def pyStartsWith (s pre : String) : Bool :=
  pre.data.isPrefixOf s.data

/-! ## config.py -/

/-- `config.SPEED_DEFAULT` -/
def SPEED_DEFAULT : Int := 175

/-- `config.VOLUME_DEFAULT` -/
def VOLUME_DEFAULT : ℚ := 1

/-- `config.CACHE_CLEANUP_DAYS` -/
def CACHE_CLEANUP_DAYS : ℚ := 7

/-- `config.MAX_CACHE_SIZE_MB` -/
def MAX_CACHE_SIZE_MB : ℚ := 500

/-! ## pdf_handler.py -/

/-- A `pdfplumber` page as consumed by this repository: the outcomes of
`page.extract_text()` (a string, `None`, or an exception) and of
`page.extract_words()` (the word texts, or an exception). -/
structure PdfPage where
  extractText : PyResult (Option String)
  extractWords : PyResult (List String)
deriving DecidableEq

/-- `PDFHandler` state (`pdf_handler.py`, `__init__`): the open document is
the list of its pages, `none` when no PDF is loaded. -/
structure PDFHandler where
  pdf : Option (List PdfPage)
  total_pages : Int
  current_page : Int
  pdf_text : List String
deriving DecidableEq

/-- `PDFHandler.extract_text` (pdf_handler.py lines 37-59): returns `none`
when no PDF is loaded, the page number is out of `[1, total_pages]`, the
library call raises, or the extracted text is `None`/empty; the whole body is
wrapped in try/except, so every failure becomes `none` rather than an
exception.  (`config.check_memory_usage` only logs and frees memory; it does
not affect the returned text.) -/
def PDFHandler.extract_text (h : PDFHandler) (page_number : Int) : Option String :=
  if h.pdf.isNone || page_number < 1 || page_number > h.total_pages then none
  else
    match h.pdf with
    | none => none
    | some pages =>
      match pyIndex pages (page_number - 1) with
      | none => none
      | some p =>
        match p.extractText with
        | .exn => none
        | .ok none => none
        | .ok (some s) => if s = "" then none else some s

/-- `PDFHandler.extract_all_text` (pdf_handler.py lines 61-70): rebuilds
`pdf_text` as `extract_text(i) or ""` for `i = 1 .. total_pages` and returns
the new list. -/
def PDFHandler.extract_all_text (h : PDFHandler) : PDFHandler × List String :=
  let l := (List.range h.total_pages.toNat).map
    (fun (i : Nat) => (h.extract_text ((i : Int) + 1)).getD "")
  ({ h with pdf_text := l }, l)

/-- Does extraction of this page fail to produce usable text for
`PDFHandler.extract_text` (exception, `None`, or empty string)? -/
def PdfPage.failsText (p : PdfPage) : Bool :=
  match p.extractText with
  | .exn => true
  | .ok none => true
  | .ok (some s) => s = ""

/-- The text `PDFHandler.extract_text` yields for an in-range page, with the
empty string standing for every failure outcome. -/
def PdfPage.textOrEmpty (p : PdfPage) : String :=
  match p.extractText with
  | .exn => ""
  | .ok none => ""
  | .ok (some s) => s

/-! ## Cache cleanup (pdf_handler.py lines 83-124, config.py lines 31-32) -/

/-- A file in the cache directory: an identity, its modification time in
seconds, and its size already expressed in megabytes
(`st_size / (1024*1024)`). -/
structure CacheFile where
  fid : Nat
  mtime : ℚ
  sizeMB : ℚ
deriving DecidableEq

/-- The age test of `cleanup_cache`:
`(current_time - mtime) / (24*3600) > CACHE_CLEANUP_DAYS`. -/
def isOld (now : ℚ) (f : CacheFile) : Bool :=
  (now - f.mtime) / (24 * 3600) > CACHE_CLEANUP_DAYS

/-- The size-limit pass of `cleanup_cache` (lines 110-118): walk the files
oldest first; before each file, if the running total is at or below the
limit, stop and keep the rest; otherwise delete the file and subtract its
size from the running total. -/
def dropWhileOver (limit : ℚ) : ℚ → List CacheFile → List CacheFile
  | _, [] => []
  | total, f :: rest =>
    if total ≤ limit then f :: rest
    else dropWhileOver limit (total - f.sizeMB) rest

/-- Core of `PDFHandler.cleanup_cache` (pdf_handler.py lines 93-118), run
when the hourly gate has passed and the cache directory exists; returns the
files left in the cache.  The first pass accumulates `total_size` over
every file — including the files it deletes for age — before any check
against `MAX_CACHE_SIZE_MB`; the second pass is entered when that
accumulated total exceeds the limit and deletes survivors oldest first
while the same running total stays above the limit. -/
def cleanup_cache (files : List CacheFile) (now : ℚ) : List CacheFile :=
  let total := (files.map (fun f => f.sizeMB)).sum
  let survivors := files.filter (fun f => !(isOld now f))
  if total > MAX_CACHE_SIZE_MB then
    dropWhileOver MAX_CACHE_SIZE_MB total
      (List.insertionSort (fun a b => a.mtime ≤ b.mtime) survivors)
  else survivors

/-! ## app.py -/

/-- `AudiobookState` (app.py lines 57-101), restricted to the fields the UI
logic reads or writes; `last_page_setting` is `last_settings['last_page']`. -/
structure AudiobookState where
  current_page : Int
  total_pages : Int
  is_playing : Bool
  error_message : String
  success_message : String
  pdf_text : List String
  speed : Int
  volume : ℚ
  voice_idx : Int
  reading_page : Int
  last_page_setting : Int
deriving DecidableEq

/-- `AudiobookState.set_page` (app.py lines 92-97). -/
def AudiobookState.set_page (s : AudiobookState) (page : Int) : AudiobookState :=
  { s with current_page := page, reading_page := page, last_page_setting := page }

/-- `AudiobookPlayer.update_page` (app.py lines 219-225): in range, set the
page and stop playback (the engine's `stop()` has no state field here);
out of range, do nothing at all. -/
def update_page (s : AudiobookState) (new_page : Int) : AudiobookState :=
  if 1 ≤ new_page ∧ new_page ≤ s.total_pages then
    { s.set_page new_page with is_playing := false }
  else s

/-- The pause branch of the Play/Pause button (app.py lines 283-287). -/
def pauseAction (s : AudiobookState) : AudiobookState :=
  { s with is_playing := false }

/-- The per-page extraction of `handle_file_upload` (app.py lines 413-433):
`page.extract_text()` first; if that raises, the error sentinel; if the text
is `None`, empty, or whitespace, fall back to `page.extract_words()`, and
when that raises or yields no words, the no-readable-text sentinel.
String truthiness `if text and text.strip()` is `t ≠ "" ∧ t.trim ≠ ""`. -/
def processPage (page_num : Int) (p : PdfPage) : String :=
  match p.extractText with
  | .exn => "[Page " ++ toString page_num ++ ": Error extracting text]"
  | .ok t =>
    let t := t.getD ""
    if t ≠ "" ∧ t.trim ≠ "" then t.trim
    else
      match p.extractWords with
      | .exn => "[Page " ++ toString page_num ++ ": No readable text found]"
      | .ok ws =>
        if ws ≠ [] then String.intercalate " " ws
        else "[Page " ++ toString page_num ++ ": No readable text found]"

/-- `AudiobookPlayer.handle_file_upload` (app.py lines 389-457) for an
upload whose PDF opens successfully with the given pages: reset the text
and playing flag, set `total_pages`, keep `current_page` if it is still in
`[1, len(pdf.pages)]` and reset it to 1 otherwise, then build a text entry
for every page (sentinels for failures); finally show an error when no page
produced non-sentinel text, a success message otherwise. -/
def handle_file_upload (s : AudiobookState) (pages : List PdfPage) : AudiobookState :=
  let s := { s with pdf_text := [], total_pages := 0, is_playing := false }
  let s := { s with pdf_text := [], total_pages := (pages.length : Int) }
  let s := if 1 ≤ s.current_page ∧ s.current_page ≤ (pages.length : Int) then s
           else s.set_page 1
  let texts := (List.range pages.length).map
    (fun (i : Nat) => processPage ((i : Int) + 1) ((pages.get? i).getD ⟨.exn, .exn⟩))
  let s := { s with pdf_text := texts }
  let text_pages := texts.filter (fun p => !(pyStartsWith p "[Page"))
  if text_pages.isEmpty then
    { s with error_message :=
        "This PDF appears to be scanned or contains only images. Currently, text extraction from scanned PDFs is not supported. Please try a PDF with actual text content." }
  else
    { s with success_message :=
        "📚 Successfully loaded PDF with " ++ toString text_pages.length ++ " readable pages" }

/-- `AudiobookPlayer.play_current_page` (app.py lines 542-591), with the
engine initialized and synthesis succeeding: speak the current page when its
text is non-empty and not the `[No text found` sentinel, then, while still
playing and `current_page < total_pages`, advance with `set_page` and
recurse; a sentinel page or an out-of-range index stops playback.
`fuel` bounds the recursion depth; every claim holds for every fuel. -/
def playCurrentPage : Nat → AudiobookState → AudiobookState
  | 0, s => s
  | fuel + 1, s =>
    if 0 ≤ s.current_page - 1 ∧ s.current_page - 1 < (s.pdf_text.length : Int) then
      if (s.pdf_text.get? (s.current_page - 1).toNat).getD "" ≠ "" ∧
          ¬ pyStartsWith ((s.pdf_text.get? (s.current_page - 1).toNat).getD "") "[No text found" then
        if s.is_playing ∧ s.current_page < s.total_pages then
          playCurrentPage fuel (s.set_page (s.current_page + 1))
        else s
      else { s with is_playing := false }
    else { s with is_playing := false }

/-- The play branch of the Play/Pause button (app.py lines 277-282): set the
playing flag, re-sync the page fields via `set_page`, then run the play
loop.  When already playing the button is the pause branch instead. -/
def playAction (fuel : Nat) (s : AudiobookState) : AudiobookState :=
  if s.is_playing then pauseAction s
  else playCurrentPage fuel ((({ s with is_playing := true } : AudiobookState)).set_page s.current_page)

/-! ## audio_reader.py -/

/-- A `pyttsx3` voice, identified by its `id`. -/
structure Voice where
  vid : Nat
deriving DecidableEq

/-- The observable properties of a `pyttsx3` engine: `rate`, `volume`, and
the selected voice id (`none` = the platform default voice, never set). -/
structure Engine where
  rate : Int
  volume : ℚ
  voice : Option Nat
deriving DecidableEq

/-- A freshly initialized engine (`initialize_engine`, audio_reader.py
lines 23-37): `rate` and `volume` are reset to the config defaults and no
voice has been selected. -/
def defaultEngine : Engine :=
  { rate := SPEED_DEFAULT, volume := VOLUME_DEFAULT, voice := none }

/-- `AudioReader` state (audio_reader.py lines 12-21). -/
structure AudioReader where
  engine : Option Engine
  voices : List Voice
  is_playing : Bool
  current_page : Int
  error_count : Int
  last_error_time : Int
  recovery_attempts : Int
deriving DecidableEq

/-- An `AudioReader` right after `__init__` with a successful engine
initialization and the given system voices. -/
def AudioReader.fresh (voices : List Voice) : AudioReader :=
  { engine := some defaultEngine, voices := voices, is_playing := false,
    current_page := 1, error_count := 0, last_error_time := 0,
    recovery_attempts := 0 }

/-- The tail of `AudioReader.recover_playback` once the attempt survives
the rate limit: stamp `last_error_time`, stop the old engine (exceptions
swallowed) and re-initialize.  On success the engine is fresh and
`error_count` is 0; on failure (the decorated `initialize_engine` raises
after its 3 tenacity attempts, each bumping `error_count`) the outer
`except` returns `False` with the engine unchanged. -/
def AudioReader.reinitAfterStop (r : AudioReader) (now : Int) (initOk : Bool) :
    Bool × AudioReader :=
  let r := { r with last_error_time := now }
  if initOk then
    (true, { r with engine := some defaultEngine, error_count := 0 })
  else
    (false, { r with error_count := r.error_count + 3 })

/-- `AudioReader.recover_playback` (audio_reader.py lines 39-68) at wall
time `now`, where `initOk` is whether re-initialization of the engine
succeeds.  Within 60 seconds of the last recorded error the attempt counter
is incremented and, past 3 attempts, recovery returns `False` before
touching `last_error_time` or the engine; otherwise the counter restarts at
1.  A surviving attempt continues in `AudioReader.reinitAfterStop`. -/
def AudioReader.recover_playback (r : AudioReader) (now : Int) (initOk : Bool) :
    Bool × AudioReader :=
  if now - r.last_error_time < 60 then
    let a := r.recovery_attempts + 1
    if a > 3 then (false, { r with recovery_attempts := a })
    else AudioReader.reinitAfterStop { r with recovery_attempts := a } now initOk
  else AudioReader.reinitAfterStop { r with recovery_attempts := 1 } now initOk

/-- `AudioReader.stop` (audio_reader.py lines 138-146): clear the playing
flag; the engine's `stop()` only interrupts speech. -/
def AudioReader.stop (r : AudioReader) : AudioReader :=
  { r with is_playing := false }

/-- `AudioReader.set_properties` (audio_reader.py lines 70-84): with no
engine, do nothing; otherwise set `rate` and `volume`, and set the voice
only when the voice list is non-empty and `0 <= voice_idx < len(voices)`.
(`setProperty` does not raise here, so the recovery branch of the
`except` is never taken.) -/
def AudioReader.set_properties (r : AudioReader) (speed : Int) (volume : ℚ)
    (voice_idx : Int) : AudioReader :=
  match r.engine with
  | none => r
  | some e =>
    let e := { e with rate := speed, volume := volume }
    if r.voices ≠ [] ∧ 0 ≤ voice_idx ∧ voice_idx < (r.voices.length : Int) then
      let e := { e with voice := (r.voices.get? voice_idx.toNat).map (fun v => v.vid) }
      { r with engine := some e }
    else { r with engine := some e }

/-- Observable events of a run of the reading loop. -/
inductive Event where
  | sayAttempt (text : String)
  | readNotice (page : Int)
  | skipNotice (page : Int)
  | recoverTry
  | doneNotice
deriving DecidableEq

/-- Oracles for the effects outside the reader's control: `sayOk n` is
whether the n-th `say`/`runAndWait` pair completes without raising,
`pauseDuring n` whether `stop()` is called from the UI thread while that
utterance plays, `initOk n` whether the n-th engine re-initialization
succeeds, and `recTime n` the wall time at the n-th `recover_playback`
call. -/
structure Env where
  sayOk : Nat → Bool
  pauseDuring : Nat → Bool
  initOk : Nat → Bool
  recTime : Nat → Int

/-- The reader together with the oracle cursors, the event trace, and a
flag recording an uncaught `IndexError` escaping `read_pages`. -/
structure RState where
  reader : AudioReader
  sayIdx : Nat
  initIdx : Nat
  recIdx : Nat
  trace : List Event
  crashed : Bool

/-- One `say`/`runAndWait` on the current engine: records the synthesis
attempt, consumes one `sayOk`/`pauseDuring` outcome, and applies the
`stop()` of a concurrent pause (clearing `is_playing`; the interrupted
`runAndWait` still returns normally). -/
def sayStep (env : Env) (s : RState) (text : String) : Bool × RState :=
  let ok := env.sayOk s.sayIdx
  let paused := env.pauseDuring s.sayIdx
  (ok,
   { s with
     sayIdx := s.sayIdx + 1,
     trace := s.trace ++ [Event.sayAttempt text],
     reader := if paused then { s.reader with is_playing := false } else s.reader })

/-- `recover_playback` as invoked during a run: reads the wall clock for
this call, consumes an `initOk` outcome only when the attempt is not
abandoned, and records the attempt in the trace. -/
def recoverStep (env : Env) (s : RState) : Bool × RState :=
  let now := env.recTime s.recIdx
  let abandoned :=
    now - s.reader.last_error_time < 60 ∧ s.reader.recovery_attempts + 1 > 3
  let res := s.reader.recover_playback now (env.initOk s.initIdx)
  (res.1,
   { s with
     reader := res.2,
     recIdx := s.recIdx + 1,
     initIdx := if abandoned then s.initIdx else s.initIdx + 1,
     trace := s.trace ++ [Event.recoverTry] })

/-- `AudioReader.read_text` (audio_reader.py lines 86-106): refuse when the
engine is missing or the text empty; otherwise speak, and on a synthesis
failure run `recover_playback` and, if it succeeds, retry the same text
once, the retry's own failure being swallowed into a `False` result. -/
def read_text (env : Env) (s : RState) (text : String) : Bool × RState :=
  if s.reader.engine.isNone || text = "" then (false, s)
  else
    let res1 := sayStep env s text
    if res1.1 then (true, res1.2)
    else
      let res2 := recoverStep env res1.2
      if res2.1 then sayStep env res2.2 text
      else (false, res2.2)

/-- `self.current_page += 1` at the bottom of the `read_pages` loop. -/
def advancePage (s : RState) : RState :=
  { s with reader := { s.reader with current_page := s.reader.current_page + 1 } }

/-- Append a logged/displayed notice to the trace. -/
def noticed (s : RState) (e : Event) : RState :=
  { s with trace := s.trace ++ [e] }

/-- The `while` loop of `AudioReader.read_pages` (audio_reader.py lines
118-131): while playing and `current_page <= len(texts)`, fetch the page's
text; a non-empty text not starting with `[No text found` is announced and
spoken via `read_text`, a failed `read_text` triggers one more
`recover_playback` whose failure breaks the loop (without advancing);
otherwise a skip notice is logged; each completed iteration advances
`current_page` by one.  A bad index (impossible for `start_page ≥ 1`)
marks the run crashed.  The loop needs at most `len(texts) + 1` fuel; the
claims hold for every fuel. -/
def readLoop (env : Env) (texts : List String) : Nat → RState → RState
  | 0, s => s
  | fuel + 1, s =>
    if s.reader.is_playing ∧ s.reader.current_page ≤ (texts.length : Int) then
      match pyIndex texts (s.reader.current_page - 1) with
      | none => { s with crashed := true }
      | some text =>
        if text ≠ "" ∧ ¬ pyStartsWith text "[No text found" then
          if (read_text env (noticed s (Event.readNotice s.reader.current_page)) text).1 then
            readLoop env texts fuel
              (advancePage (read_text env (noticed s (Event.readNotice s.reader.current_page)) text).2)
          else if (recoverStep env (read_text env (noticed s (Event.readNotice s.reader.current_page)) text).2).1 then
            readLoop env texts fuel
              (advancePage (recoverStep env (read_text env (noticed s (Event.readNotice s.reader.current_page)) text).2).2)
          else (recoverStep env (read_text env (noticed s (Event.readNotice s.reader.current_page)) text).2).2
        else
          readLoop env texts fuel (advancePage (noticed s (Event.skipNotice s.reader.current_page)))
    else s

/-- `AudioReader.read_pages` (audio_reader.py lines 108-136): an empty text
list returns immediately; otherwise set the playing flag and the start
page, run the loop, then clear the playing flag and, when the page pointer
passed the last page, report completion.  A crashed run (uncaught
`IndexError`) skips the post-loop code. -/
def read_pages (env : Env) (s : RState) (texts : List String) (start_page : Int) : RState :=
  if texts.isEmpty then s
  else
    let s := { s with reader :=
      { s.reader with is_playing := true, current_page := start_page } }
    let s := readLoop env texts (texts.length + 1) s
    if s.crashed then s
    else
      let s := { s with reader := { s.reader with is_playing := false } }
      if s.reader.current_page > (texts.length : Int) then
        { s with trace := s.trace ++ [Event.doneNotice] }
      else s

/-- A run state at the start of a session: fresh reader, oracle cursors at
zero, empty trace. -/
def RState.fresh (voices : List Voice) : RState :=
  { reader := AudioReader.fresh voices, sayIdx := 0, initIdx := 0, recIdx := 0,
    trace := [], crashed := false }

/-- The oracle of an untroubled run: every synthesis succeeds, no pause
arrives, re-initialization succeeds, the clock stays at zero. -/
def okEnv : Env :=
  { sayOk := fun _ => true, pauseDuring := fun _ => false,
    initOk := fun _ => true, recTime := fun _ => 0 }

/-! ## Session store -/

/-- Modelled from the spec: no session-persistence code exists under `src/`
(the Session Store of spec §2/§6 has no implementation in this repository),
so the persisted settings record is taken from the layout of spec §6: fields
`current_page`, `speed`, `volume`, `voice_idx`.  `volume` is a JSON number,
modelled exactly as a rational. -/
structure SessionCore where
  page : Int
  speed : Int
  volume : ℚ
  voice_idx : Int
deriving DecidableEq

/-- Modelled from the spec: a `SessionRecord` as persisted — the current
settings plus the optional `last_session` object mirroring the same fields
for a previous run (spec §6). -/
structure SessionRecord where
  core : SessionCore
  last_session : Option SessionCore
deriving DecidableEq

/-- Modelled from the spec: the JSON values the settings file uses —
integers, numbers, and objects. -/
inductive JVal where
  | jint (n : Int)
  | jnum (q : ℚ)
  | jobj (fields : List (String × JVal))

/-- Modelled from the spec: serialize the four settings fields in the
layout of spec §6. -/
def writeCore (c : SessionCore) : List (String × JVal) :=
  [("current_page", JVal.jint c.page), ("speed", JVal.jint c.speed),
   ("volume", JVal.jnum c.volume), ("voice_idx", JVal.jint c.voice_idx)]

/-- Modelled from the spec: write a `SessionRecord` to the settings file,
`last_session` present only when a previous run exists. -/
def writeSession (r : SessionRecord) : JVal :=
  JVal.jobj (writeCore r.core ++
    (match r.last_session with
     | some l => [("last_session", JVal.jobj (writeCore l))]
     | none => []))

/-- Read an integer field of a JSON object. -/
def getInt (fields : List (String × JVal)) (k : String) : Option Int :=
  match fields.lookup k with
  | some (JVal.jint n) => some n
  | _ => none

/-- Read a numeric field of a JSON object. -/
def getNum (fields : List (String × JVal)) (k : String) : Option ℚ :=
  match fields.lookup k with
  | some (JVal.jnum q) => some q
  | _ => none

/-- Modelled from the spec: parse the four settings fields; any missing or
mistyped field makes the record malformed (`none`, treated as "no prior
session"). -/
def readCore (fields : List (String × JVal)) : Option SessionCore :=
  match getInt fields "current_page", getInt fields "speed",
        getNum fields "volume", getInt fields "voice_idx" with
  | some p, some sp, some v, some vi =>
    some { page := p, speed := sp, volume := v, voice_idx := vi }
  | _, _, _, _ => none

/-- Modelled from the spec: read a `SessionRecord` back from the settings
file; a malformed top level is "no prior session" (`none`). -/
def readSession (j : JVal) : Option SessionRecord :=
  match j with
  | JVal.jobj fields =>
    match readCore fields with
    | none => none
    | some c =>
      let last :=
        match fields.lookup "last_session" with
        | some (JVal.jobj lf) => readCore lf
        | _ => none
      some { core := c, last_session := last }
  | _ => none

/-! ## Demonstration inputs used by the concrete scenarios -/

/-- A state with a 3-page document loaded, used to exercise `update_page`. -/
def demoAppState : AudiobookState :=
  { current_page := 2, total_pages := 3, is_playing := true,
    error_message := "", success_message := "",
    pdf_text := ["one", "two", "three"], speed := 175, volume := 1,
    voice_idx := 0, reading_page := 2, last_page_setting := 2 }

/-- The 3-page document of the sentinel scenario: page 2 carries the
no-text sentinel. -/
def sentinelTexts : List String :=
  ["Hello page one.", "[No text found on this page]", "Page three."]

/-- The sentinel-scenario run: fresh reader, untroubled oracle, playback
started from page 1. -/
def sentinelRun : RState :=
  read_pages okEnv (RState.fresh []) sentinelTexts 1

/-- An oracle whose only disturbance is a pause signal arriving during the
first utterance. -/
def pauseEnv : Env :=
  { okEnv with pauseDuring := fun n => n = 0 }

/-- An oracle where every synthesis raises; re-initialization itself would
succeed, and the clock stays at time 0 (inside the 60-second window of a
reader whose `last_error_time` is 0). -/
def ceilEnv : Env :=
  { sayOk := fun _ => false, pauseDuring := fun _ => false,
    initOk := fun _ => true, recTime := fun _ => 0 }

/-- Number of synthesis attempts recorded in a trace. -/
def sayCount (tr : List Event) : Nat :=
  (tr.filter (fun e => match e with | Event.sayAttempt _ => true | _ => false)).length

/-- A 3-page PDF whose second page raises on extraction and whose third
yields no text. -/
def demoPages : List PdfPage :=
  [⟨PyResult.ok (some "Text."), PyResult.ok []⟩,
   ⟨PyResult.exn, PyResult.ok []⟩,
   ⟨PyResult.ok none, PyResult.ok []⟩]

/-- A handler with `demoPages` loaded. -/
def demoHandler : PDFHandler :=
  { pdf := some demoPages, total_pages := 3, current_page := 1, pdf_text := [] }

/-- A 2-page upload whose second page raises on extraction. -/
def demoUploadPages : List PdfPage :=
  [⟨PyResult.ok (some "Fine."), PyResult.ok []⟩,
   ⟨PyResult.exn, PyResult.exn⟩]

/-- An untroubled run over a one-page document, exhibiting the end state of
the read loop. -/
def onePageRun : RState :=
  read_pages okEnv (RState.fresh []) ["One page."] 1

/-- A pause arriving during the first utterance of a two-page document. -/
def pausedRun : RState :=
  read_pages pauseEnv (RState.fresh []) ["First page.", "Second page."] 1

/-- A reader that has already made 2 recovery attempts, the last error
30 seconds ago. -/
def nearCeilReader : AudioReader :=
  { AudioReader.fresh [] with recovery_attempts := 2, last_error_time := 100 }

/-- An oracle whose first synthesis attempt raises and all later ones
succeed, with successful re-initialization — the single-failure recovery
scenario. -/
def retryEnv : Env :=
  { sayOk := fun n => n != 0, pauseDuring := fun _ => false,
    initOk := fun _ => true, recTime := fun _ => 0 }

/-- A reader whose attempt counter stands at 3 with the last error 30
seconds ago: its next in-window recovery attempt is the 4th. -/
def ceilReader4 : AudioReader :=
  { AudioReader.fresh [] with recovery_attempts := 3, last_error_time := 100 }

/-- A run state whose reader has already burnt 3 recovery attempts with
the last error at time 0 — the next in-window attempt exceeds the cap. -/
def atCeilState : RState :=
  { RState.fresh [] with reader :=
      { AudioReader.fresh [] with recovery_attempts := 3 } }

/-- Cache-cleanup counterexample: one 600 MB file 10 days old. -/
def oldBig : CacheFile := { fid := 1, mtime := 0, sizeMB := 600 }

/-- Cache-cleanup counterexample: one fresh 10 MB file. -/
def newSmall : CacheFile := { fid := 2, mtime := 864000, sizeMB := 10 }

/-! ## Helper lemmas -/

theorem pyIndex_nonneg {α : Type} (l : List α) (i : Int) (h : 0 ≤ i) :
    pyIndex l i = l.get? i.toNat := by
  simp [pyIndex, h]

theorem sayStep_page (env : Env) (s : RState) (text : String) :
    (sayStep env s text).2.reader.current_page = s.reader.current_page := by
  simp only [sayStep]
  split <;> rfl

theorem sayStep_crashed (env : Env) (s : RState) (text : String) :
    (sayStep env s text).2.crashed = s.crashed := rfl

theorem recover_playback_page (r : AudioReader) (now : Int) (initOk : Bool) :
    (r.recover_playback now initOk).2.current_page = r.current_page := by
  simp only [AudioReader.recover_playback, AudioReader.reinitAfterStop]
  repeat' split
  all_goals rfl

theorem recover_playback_playing (r : AudioReader) (now : Int) (initOk : Bool) :
    (r.recover_playback now initOk).2.is_playing = r.is_playing := by
  simp only [AudioReader.recover_playback, AudioReader.reinitAfterStop]
  repeat' split
  all_goals rfl

theorem recoverStep_page (env : Env) (s : RState) :
    (recoverStep env s).2.reader.current_page = s.reader.current_page :=
  recover_playback_page s.reader (env.recTime s.recIdx) (env.initOk s.initIdx)

theorem recoverStep_crashed (env : Env) (s : RState) :
    (recoverStep env s).2.crashed = s.crashed := rfl

theorem read_text_page (env : Env) (s : RState) (text : String) :
    (read_text env s text).2.reader.current_page = s.reader.current_page := by
  simp only [read_text]
  split
  · rfl
  · split
    · exact sayStep_page env s text
    · split
      · rw [sayStep_page, recoverStep_page, sayStep_page]
      · rw [recoverStep_page, sayStep_page]

theorem read_text_crashed (env : Env) (s : RState) (text : String) :
    (read_text env s text).2.crashed = s.crashed := by
  simp only [read_text]
  split
  · rfl
  · split
    · exact sayStep_crashed env s text
    · split
      · rw [sayStep_crashed, recoverStep_crashed, sayStep_crashed]
      · rw [recoverStep_crashed, sayStep_crashed]

theorem advancePage_page (s : RState) :
    (advancePage s).reader.current_page = s.reader.current_page + 1 := rfl

theorem advancePage_crashed (s : RState) : (advancePage s).crashed = s.crashed := rfl

theorem noticed_reader (s : RState) (e : Event) : (noticed s e).reader = s.reader := rfl

theorem noticed_crashed (s : RState) (e : Event) : (noticed s e).crashed = s.crashed := rfl

theorem readLoop_not_playing (env : Env) (texts : List String) (fuel : Nat) (s : RState)
    (h : s.reader.is_playing = false) : readLoop env texts fuel s = s := by
  cases fuel <;> simp [readLoop, h]

theorem readLoop_inv (env : Env) (texts : List String) :
    ∀ (fuel : Nat) (s : RState), s.crashed = false →
      1 ≤ s.reader.current_page →
      s.reader.current_page ≤ (texts.length : Int) + 1 →
      (readLoop env texts fuel s).crashed = false ∧
      1 ≤ (readLoop env texts fuel s).reader.current_page ∧
      (readLoop env texts fuel s).reader.current_page ≤ (texts.length : Int) + 1 := by
  intro fuel
  induction fuel with
  | zero =>
    intro s h1 h2 h3
    simpa [readLoop] using ⟨h1, h2, h3⟩
  | succ n ih =>
    intro s h1 h2 h3
    rw [readLoop]
    split
    · rename_i hcond
      obtain ⟨hplay, hle⟩ := hcond
      have hlt : (s.reader.current_page - 1).toNat < texts.length := by omega
      have hpy : pyIndex texts (s.reader.current_page - 1) =
          some (texts.get ⟨(s.reader.current_page - 1).toNat, hlt⟩) := by
        rw [pyIndex_nonneg _ _ (by omega)]
        exact List.get?_eq_get hlt
      rw [hpy]
      split
      · rename_i hnone
        exact Option.noConfusion hnone
      · rename_i t hsome
        split
        · split
          · refine ih _ ?_ ?_ ?_ <;>
              simp only [advancePage_crashed, advancePage_page, read_text_crashed,
                read_text_page, noticed_reader, noticed_crashed]
            · exact h1
            · omega
            · omega
          · split
            · refine ih _ ?_ ?_ ?_ <;>
                simp only [advancePage_crashed, advancePage_page, recoverStep_crashed,
                  recoverStep_page, read_text_crashed, read_text_page, noticed_reader,
                  noticed_crashed]
              · exact h1
              · omega
              · omega
            · refine ⟨?_, ?_, ?_⟩ <;>
                simp only [recoverStep_crashed, recoverStep_page, read_text_crashed,
                  read_text_page, noticed_reader, noticed_crashed]
              · exact h1
              · exact h2
              · omega
        · refine ih _ ?_ ?_ ?_ <;>
            simp only [advancePage_crashed, advancePage_page, noticed_reader, noticed_crashed]
          · exact h1
          · omega
          · omega
    · exact ⟨h1, h2, h3⟩

theorem sayStep_fst (env : Env) (s : RState) (text : String) :
    (sayStep env s text).1 = env.sayOk s.sayIdx := rfl

theorem sayStep_trace (env : Env) (s : RState) (text : String) :
    (sayStep env s text).2.trace = s.trace ++ [Event.sayAttempt text] := rfl

theorem sayStep_sayIdx (env : Env) (s : RState) (text : String) :
    (sayStep env s text).2.sayIdx = s.sayIdx + 1 := rfl

theorem sayStep_recIdx (env : Env) (s : RState) (text : String) :
    (sayStep env s text).2.recIdx = s.recIdx := rfl

theorem sayStep_initIdx (env : Env) (s : RState) (text : String) :
    (sayStep env s text).2.initIdx = s.initIdx := rfl

theorem sayStep_let (env : Env) (s : RState) (text : String) :
    (sayStep env s text).2.reader.last_error_time = s.reader.last_error_time := by
  simp only [sayStep]
  split <;> rfl

theorem sayStep_attempts (env : Env) (s : RState) (text : String) :
    (sayStep env s text).2.reader.recovery_attempts = s.reader.recovery_attempts := by
  simp only [sayStep]
  split <;> rfl

theorem sayStep_paused (env : Env) (s : RState) (text : String)
    (hp : env.pauseDuring s.sayIdx = true) :
    (sayStep env s text).2.reader.is_playing = false := by
  simp [sayStep, hp]

theorem advancePage_playing (s : RState) :
    (advancePage s).reader.is_playing = s.reader.is_playing := rfl

theorem advancePage_trace (s : RState) : (advancePage s).trace = s.trace := rfl

theorem noticed_trace (s : RState) (e : Event) : (noticed s e).trace = s.trace ++ [e] := rfl

theorem noticed_sayIdx (s : RState) (e : Event) : (noticed s e).sayIdx = s.sayIdx := rfl

theorem noticed_recIdx (s : RState) (e : Event) : (noticed s e).recIdx = s.recIdx := rfl

theorem recoverStep_reader (env : Env) (s : RState) :
    (recoverStep env s).2.reader =
      (s.reader.recover_playback (env.recTime s.recIdx) (env.initOk s.initIdx)).2 := rfl

theorem recoverStep_recIdx (env : Env) (s : RState) :
    (recoverStep env s).2.recIdx = s.recIdx + 1 := rfl

theorem recoverStep_fst (env : Env) (s : RState) :
    (recoverStep env s).1 =
      (s.reader.recover_playback (env.recTime s.recIdx) (env.initOk s.initIdx)).1 := rfl

theorem recoverStep_trace (env : Env) (s : RState) :
    (recoverStep env s).2.trace = s.trace ++ [Event.recoverTry] := rfl

theorem recover_playback_fst (r : AudioReader) (now : Int) (initOk : Bool)
    (h : now - r.last_error_time < 60 → r.recovery_attempts + 1 ≤ 3) :
    (r.recover_playback now initOk).1 = initOk := by
  unfold AudioReader.recover_playback AudioReader.reinitAfterStop
  split
  · rename_i hwin
    rw [if_neg (by omega)]
    cases initOk <;> simp
  · cases initOk <;> simp

theorem recover_playback_abandon (r : AudioReader) (now : Int) (initOk : Bool)
    (hwin : now - r.last_error_time < 60) (hcap : r.recovery_attempts + 1 > 3) :
    r.recover_playback now initOk =
      (false, { r with recovery_attempts := r.recovery_attempts + 1 }) := by
  unfold AudioReader.recover_playback
  rw [if_pos hwin, if_pos hcap]

theorem recoverStep_abandon_let (env : Env) (s : RState)
    (hwin : env.recTime s.recIdx - s.reader.last_error_time < 60)
    (hcap : s.reader.recovery_attempts + 1 > 3) :
    (recoverStep env s).2.reader.last_error_time = s.reader.last_error_time := by
  rw [recoverStep_reader, recover_playback_abandon _ _ _ hwin hcap]

theorem recoverStep_abandon_attempts (env : Env) (s : RState)
    (hwin : env.recTime s.recIdx - s.reader.last_error_time < 60)
    (hcap : s.reader.recovery_attempts + 1 > 3) :
    (recoverStep env s).2.reader.recovery_attempts = s.reader.recovery_attempts + 1 := by
  rw [recoverStep_reader, recover_playback_abandon _ _ _ hwin hcap]

theorem read_text_say_ok (env : Env) (s : RState) (text : String)
    (he : s.reader.engine.isNone = false) (hne : text ≠ "")
    (hok : env.sayOk s.sayIdx = true) :
    read_text env s text = (true, (sayStep env s text).2) := by
  unfold read_text
  rw [if_neg (by simp [he, hne])]
  rw [if_pos (by rw [sayStep_fst]; exact hok)]

theorem read_text_fail_eq (env : Env) (s : RState) (text : String)
    (he : s.reader.engine.isNone = false) (hne : text ≠ "")
    (hfail : env.sayOk s.sayIdx = false)
    (hrecfail : (recoverStep env (sayStep env s text).2).1 = false) :
    read_text env s text = (false, (recoverStep env (sayStep env s text).2).2) := by
  unfold read_text
  rw [if_neg (by simp [he, hne])]
  rw [if_neg (by rw [sayStep_fst, hfail]; exact Bool.false_ne_true)]
  rw [if_neg (by rw [hrecfail]; exact Bool.false_ne_true)]

theorem read_text_retry_ok (env : Env) (s : RState) (text : String)
    (he : s.reader.engine.isNone = false) (hne : text ≠ "")
    (hfail : env.sayOk s.sayIdx = false)
    (hrec : (recoverStep env (sayStep env s text).2).1 = true) :
    read_text env s text = sayStep env (recoverStep env (sayStep env s text).2).2 text := by
  unfold read_text
  rw [if_neg (by simp [he, hne])]
  rw [if_neg (by rw [sayStep_fst, hfail]; exact Bool.false_ne_true)]
  rw [if_pos hrec]

theorem readLoop_step_speak (env : Env) (texts : List String) (fuel : Nat) (s : RState)
    (hplay : s.reader.is_playing = true)
    (hle : s.reader.current_page ≤ (texts.length : Int))
    (t : String) (htx : pyIndex texts (s.reader.current_page - 1) = some t)
    (hne : t ≠ "") (hns : ¬ pyStartsWith t "[No text found")
    (hsucc : (read_text env (noticed s (Event.readNotice s.reader.current_page)) t).1 = true) :
    readLoop env texts (fuel + 1) s =
      readLoop env texts fuel
        (advancePage (read_text env (noticed s (Event.readNotice s.reader.current_page)) t).2) := by
  rw [readLoop, if_pos ⟨hplay, hle⟩]
  split
  · rename_i heq
    rw [htx] at heq
    exact Option.noConfusion heq
  · rename_i t2 heq
    rw [htx] at heq
    injection heq with heq2
    subst heq2
    rw [if_pos ⟨hne, hns⟩, if_pos hsucc]

theorem readLoop_step_fail (env : Env) (texts : List String) (fuel : Nat) (s : RState)
    (hplay : s.reader.is_playing = true)
    (hle : s.reader.current_page ≤ (texts.length : Int))
    (t : String) (htx : pyIndex texts (s.reader.current_page - 1) = some t)
    (hne : t ≠ "") (hns : ¬ pyStartsWith t "[No text found")
    (hfail : (read_text env (noticed s (Event.readNotice s.reader.current_page)) t).1 = false)
    (hrec : (recoverStep env
        (read_text env (noticed s (Event.readNotice s.reader.current_page)) t).2).1 = false) :
    readLoop env texts (fuel + 1) s =
      (recoverStep env
        (read_text env (noticed s (Event.readNotice s.reader.current_page)) t).2).2 := by
  rw [readLoop, if_pos ⟨hplay, hle⟩]
  split
  · rename_i heq
    rw [htx] at heq
    exact Option.noConfusion heq
  · rename_i t2 heq
    rw [htx] at heq
    injection heq with heq2
    subst heq2
    rw [if_pos ⟨hne, hns⟩]
    rw [if_neg (by rw [hfail]; exact Bool.false_ne_true)]
    rw [if_neg (by rw [hrec]; exact Bool.false_ne_true)]

theorem sayCount_append (a b : List Event) :
    sayCount (a ++ b) = sayCount a + sayCount b := by
  simp [sayCount, List.filter_append]

theorem read_pages_end (env : Env) (s : RState) (texts : List String) (start : Int)
    (hc : s.crashed = false) (h1 : 1 ≤ start) (h2 : start ≤ (texts.length : Int)) :
    (read_pages env s texts start).reader.is_playing = false ∧
    1 ≤ (read_pages env s texts start).reader.current_page ∧
    (read_pages env s texts start).reader.current_page ≤ (texts.length : Int) + 1 := by
  have hne : texts.isEmpty = false := by
    cases texts
    · simp at h2; omega
    · rfl
  rw [read_pages, hne]
  simp only [Bool.false_eq_true, if_false]
  have hinv := readLoop_inv env texts (texts.length + 1)
    { s with reader := { s.reader with is_playing := true, current_page := start } }
    hc h1 (show start ≤ (texts.length : Int) + 1 by omega)
  obtain ⟨hcr, hlo, hhi⟩ := hinv
  rw [if_neg (by simp [hcr])]
  split
  · exact ⟨rfl, hlo, hhi⟩
  · exact ⟨rfl, hlo, hhi⟩

theorem playCurrentPage_inv : ∀ (fuel : Nat) (s : AudiobookState),
    1 ≤ s.current_page → s.current_page ≤ s.total_pages →
    1 ≤ (playCurrentPage fuel s).current_page ∧
    (playCurrentPage fuel s).current_page ≤ (playCurrentPage fuel s).total_pages := by
  intro fuel
  induction fuel with
  | zero =>
    intro s hl hr
    simpa [playCurrentPage] using ⟨hl, hr⟩
  | succ n ih =>
    intro s hl hr
    rw [playCurrentPage]
    split
    · split
      · split
        · rename_i hc
          obtain ⟨hp, hlt⟩ := hc
          exact ih _ (by simp [AudiobookState.set_page]; omega)
            (by simp [AudiobookState.set_page]; omega)
        · exact ⟨hl, hr⟩
      · exact ⟨hl, hr⟩
    · exact ⟨hl, hr⟩

theorem handle_file_upload_pages (s : AudiobookState) (pages : List PdfPage) :
    (handle_file_upload s pages).total_pages = (pages.length : Int) ∧
    (handle_file_upload s pages).current_page =
      (if 1 ≤ s.current_page ∧ s.current_page ≤ (pages.length : Int)
       then s.current_page else 1) ∧
    (handle_file_upload s pages).is_playing = false := by
  simp only [handle_file_upload]
  split <;> split <;> simp_all [AudiobookState.set_page]

theorem handle_file_upload_text (s : AudiobookState) (pages : List PdfPage) :
    (handle_file_upload s pages).pdf_text =
      (List.range pages.length).map
        (fun (i : Nat) => processPage ((i : Int) + 1)
          ((pages.get? i).getD ⟨PyResult.exn, PyResult.exn⟩)) := by
  simp only [handle_file_upload]
  split <;> split <;> rfl

theorem failsText_textOrEmpty (p : PdfPage) (h : p.failsText = true) :
    p.textOrEmpty = "" := by
  unfold PdfPage.failsText at h
  unfold PdfPage.textOrEmpty
  split at h
  · rfl
  · rfl
  · rename_i s heq
    simp only [decide_eq_true_eq] at h
    simp [heq, h]

theorem extract_text_getD (h : PDFHandler) (pages : List PdfPage)
    (hp : h.pdf = some pages) (ht : h.total_pages = (pages.length : Int))
    (i : Nat) (hi : i < pages.length) :
    (h.extract_text ((i : Int) + 1)).getD "" = (pages.get ⟨i, hi⟩).textOrEmpty := by
  unfold PDFHandler.extract_text
  have hguard : (h.pdf.isNone || decide ((i : Int) + 1 < 1) ||
      decide ((i : Int) + 1 > h.total_pages)) = false := by
    simp [hp, ht]
    omega
  rw [hguard]
  simp only [Bool.false_eq_true, if_false, hp]
  have hpy : pyIndex pages ((i : Int) + 1 - 1) = some (pages.get ⟨i, hi⟩) := by
    have he : ((i : Int) + 1 - 1) = (i : Int) := by omega
    rw [he, pyIndex_nonneg _ _ (by omega)]
    simpa using List.get?_eq_get hi
  rw [hpy]
  split
  · rename_i heq
    exact Option.noConfusion heq
  · rename_i p heq
    injection heq with heq2
    subst heq2
    unfold PdfPage.textOrEmpty
    cases hx : (pages.get ⟨i, hi⟩).extractText with
    | exn => rfl
    | ok t =>
      cases t with
      | none => rfl
      | some str =>
        by_cases hs : str = ""
        · simp [hs]
        · simp [hs]

/-! ## Claims -/

/-- C5: for every integer `n` outside `[1, total_pages]`, `update_page n`
is a strict no-op — the whole state, hence `current_page` and all other
playback state, is unchanged; for `n` inside the range, it sets
`current_page` (and the mirror fields) to `n` and stops any active
playback, leaving `total_pages` and the loaded text alone. -/
theorem C5_go_to_page_spec (s : AudiobookState) (n : Int) :
    (¬ (1 ≤ n ∧ n ≤ s.total_pages) → update_page s n = s) ∧
    ((1 ≤ n ∧ n ≤ s.total_pages) →
      (update_page s n).current_page = n ∧
      (update_page s n).is_playing = false ∧
      (update_page s n).total_pages = s.total_pages ∧
      (update_page s n).pdf_text = s.pdf_text) := by
  constructor
  · intro hout
    simp [update_page, hout]
  · intro hin
    simp [update_page, hin, AudiobookState.set_page]

/-- Witness for C5 at a concrete state: `n = 5` is out of range for the
3-page document and leaves the state untouched; `n = 3` is in range, lands
on page 3 and stops playback. -/
theorem C5_go_to_page_spec_witness :
    update_page demoAppState 5 = demoAppState ∧
    (update_page demoAppState 3).current_page = 3 ∧
    (update_page demoAppState 3).is_playing = false :=
  ⟨(C5_go_to_page_spec demoAppState 5).1 (by decide),
   ((C5_go_to_page_spec demoAppState 3).2 (by decide)).1,
   ((C5_go_to_page_spec demoAppState 3).2 (by decide)).2.1⟩

/-- C7: writing a `SessionRecord` to the persisted settings file and
reading it back yields an identical record — in particular identical
`speed`, `volume`, `voice_idx` and `page` values.  The store is modelled
from the spec (no persistence code exists under `src/`). -/
theorem C7_session_roundtrip (r : SessionRecord) :
    readSession (writeSession r) = some r := by
  obtain ⟨⟨p, sp, v, vi⟩, last⟩ := r
  cases last <;> rfl

/-- C9: for a loaded PDF with `total_pages = P` pages, `extract_all_text`
returns a list of exactly `P` strings in page order — entry `i` is page
`i+1`'s extracted text — where every page whose extraction raises or
yields no text appears as the empty string; being a total function, the
call never raises. -/
theorem C9_extract_all_text_spec (h : PDFHandler) (pages : List PdfPage)
    (hp : h.pdf = some pages) (ht : h.total_pages = (pages.length : Int)) :
    (h.extract_all_text).2.length = pages.length ∧
    (∀ (i : Nat) (hi : i < pages.length),
      (h.extract_all_text).2.get? i = some (pages.get ⟨i, hi⟩).textOrEmpty) ∧
    (∀ (i : Nat) (hi : i < pages.length), (pages.get ⟨i, hi⟩).failsText = true →
      (h.extract_all_text).2.get? i = some "") := by
  have hlen : h.total_pages.toNat = pages.length := by omega
  have hget : ∀ (i : Nat) (hi : i < pages.length),
      (h.extract_all_text).2.get? i = some (pages.get ⟨i, hi⟩).textOrEmpty := by
    intro i hi
    unfold PDFHandler.extract_all_text
    rw [List.get?_map, List.get?_range (by omega : i < h.total_pages.toNat)]
    simp only [Option.map_some']
    rw [extract_text_getD h pages hp ht i hi]
  refine ⟨?_, hget, ?_⟩
  · simp [PDFHandler.extract_all_text, hlen]
  · intro i hi hfail
    rw [hget i hi, failsText_textOrEmpty _ hfail]

/-- Witness for C9 at a concrete handler: a 3-page document whose second
page raises on extraction and whose third yields no text still comes back
as exactly 3 strings, the second being empty. -/
theorem C9_extract_all_text_spec_witness :
    demoHandler.extract_all_text.2.length = demoPages.length ∧
    demoHandler.extract_all_text.2.get? 1 = some "" :=
  ⟨(C9_extract_all_text_spec demoHandler demoPages rfl (by decide)).1,
   (C9_extract_all_text_spec demoHandler demoPages rfl (by decide)).2.2
      1 (by decide) (by decide)⟩

/-- C10: for every `voice_idx` outside `[0, number of voices)`,
`set_properties` on an initialized engine still applies the `rate` and
`volume` settings, leaves the engine's voice unchanged, and — being a
total function whose `except` swallows `setProperty` errors — does not
raise. -/
theorem C10_set_properties_out_of_range (r : AudioReader) (e : Engine)
    (speed : Int) (volume : ℚ) (voice_idx : Int)
    (he : r.engine = some e)
    (hout : ¬ (0 ≤ voice_idx ∧ voice_idx < (r.voices.length : Int))) :
    (r.set_properties speed volume voice_idx).engine =
      some { rate := speed, volume := volume, voice := e.voice } ∧
    (r.set_properties speed volume voice_idx).voices = r.voices ∧
    (r.set_properties speed volume voice_idx).is_playing = r.is_playing ∧
    (r.set_properties speed volume voice_idx).current_page = r.current_page := by
  unfold AudioReader.set_properties
  rw [he]
  have hcnd : ¬ (r.voices ≠ [] ∧ 0 ≤ voice_idx ∧ voice_idx < (r.voices.length : Int)) :=
    fun hcl => hout hcl.2
  simp [hcnd]

/-- Witness for C10: a reader with one voice, asked for voice index 5:
rate and volume land on the engine, the voice stays the default. -/
theorem C10_set_properties_out_of_range_witness :
    ((AudioReader.fresh [⟨7⟩]).set_properties 200 (1/2) 5).engine =
      some { rate := 200, volume := 1/2, voice := none } :=
  (C10_set_properties_out_of_range (AudioReader.fresh [⟨7⟩]) defaultEngine
    200 (1/2) 5 rfl (by decide)).1

/-- C6: page-level text-extraction failures during upload are swallowed
and replaced by sentinel strings rather than raised: the text list always
has one entry per page, each page's entry depends only on that page's own
outcomes, and a page whose `extract_text()` raises becomes the
`[Page n: Error extracting text]` sentinel — so one bad page never aborts
processing of the whole document. -/
theorem C6_extraction_sentinels (s : AudiobookState) (pages : List PdfPage) :
    (handle_file_upload s pages).pdf_text.length = pages.length ∧
    (∀ (i : Nat) (hi : i < pages.length),
      (handle_file_upload s pages).pdf_text.get? i =
        some (processPage ((i : Int) + 1) (pages.get ⟨i, hi⟩))) ∧
    (∀ (i : Nat) (hi : i < pages.length),
      (pages.get ⟨i, hi⟩).extractText = PyResult.exn →
      (handle_file_upload s pages).pdf_text.get? i =
        some ("[Page " ++ toString ((i : Int) + 1) ++ ": Error extracting text]")) := by
  have hget : ∀ (i : Nat) (hi : i < pages.length),
      (handle_file_upload s pages).pdf_text.get? i =
        some (processPage ((i : Int) + 1) (pages.get ⟨i, hi⟩)) := by
    intro i hi
    rw [handle_file_upload_text, List.get?_map, List.get?_range hi]
    simp only [Option.map_some']
    rw [List.get?_eq_get hi]
    rfl
  refine ⟨?_, hget, ?_⟩
  · rw [handle_file_upload_text]
    simp
  · intro i hi hexn
    rw [hget i hi]
    unfold processPage
    rw [hexn]

/-- Witness for C6: a 2-page upload whose second page raises yields two
entries, the second being the error sentinel — the first page's text is
unaffected. -/
theorem C6_extraction_sentinels_witness :
    (handle_file_upload demoAppState demoUploadPages).pdf_text.length =
      demoUploadPages.length ∧
    (handle_file_upload demoAppState demoUploadPages).pdf_text.get? 1 =
      some ("[Page " ++ toString (((1 : Nat) : Int) + 1) ++ ": Error extracting text]") :=
  ⟨(C6_extraction_sentinels demoAppState demoUploadPages).1,
   (C6_extraction_sentinels demoAppState demoUploadPages).2.2 1 (by decide) (by decide)⟩

/-- C2: on the 3-page document whose page 2 holds the no-text sentinel,
playback from page 1 announces and speaks page 1, shows a skip notice for
page 2 with no synthesis call for it, announces and speaks page 3, reports
completion, and terminates with `playing = false` and
`current_page = 4 > total_pages = 3`; exactly two synthesis calls occur
(pages 1 and 3). -/
theorem C2_sentinel_scenario :
    sentinelRun.reader.is_playing = false ∧
    sentinelRun.reader.current_page = 4 ∧
    (sentinelTexts.length : Int) = 3 ∧
    sentinelRun.trace =
      [Event.readNotice 1, Event.sayAttempt "Hello page one.",
       Event.skipNotice 2,
       Event.readNotice 3, Event.sayAttempt "Page three.",
       Event.doneNotice] ∧
    sayCount sentinelRun.trace = 2 := by
  refine ⟨rfl, rfl, rfl, rfl, rfl⟩

/-- C1 fails on the read loop's termination: running the loop over a
loaded one-page document (`total_pages = 1 > 0`) ends with
`current_page = 2`, violating `current_page ≤ total_pages`. -/
theorem C1_counterexample :
    onePageRun.reader.current_page = 2 ∧
    ¬ (onePageRun.reader.current_page ≤ ((["One page."] : List String).length : Int)) := by
  refine ⟨rfl, by decide⟩

/-- C1 amended: page navigation, pause, load and the app-side play loop
all preserve `1 ≤ current_page ≤ total_pages`, but the AudioReader read
loop does not preserve it at termination — it always ends with
`playing = false` and `current_page` within `[1, total_pages + 1]`, the
value `total_pages + 1` being reached exactly when the document was read
to the end. -/
theorem C1_amended_invariant :
    (∀ (s : AudiobookState) (n : Int), 0 < s.total_pages →
      1 ≤ s.current_page → s.current_page ≤ s.total_pages →
      1 ≤ (update_page s n).current_page ∧
      (update_page s n).current_page ≤ (update_page s n).total_pages) ∧
    (∀ (s : AudiobookState),
      (pauseAction s).current_page = s.current_page ∧
      (pauseAction s).total_pages = s.total_pages) ∧
    (∀ (s : AudiobookState) (pages : List PdfPage), pages ≠ [] →
      1 ≤ (handle_file_upload s pages).current_page ∧
      (handle_file_upload s pages).current_page ≤ (handle_file_upload s pages).total_pages) ∧
    (∀ (fuel : Nat) (s : AudiobookState),
      1 ≤ s.current_page → s.current_page ≤ s.total_pages →
      1 ≤ (playAction fuel s).current_page ∧
      (playAction fuel s).current_page ≤ (playAction fuel s).total_pages) ∧
    (∀ (env : Env) (s : RState) (texts : List String) (start : Int),
      s.crashed = false → 1 ≤ start → start ≤ (texts.length : Int) →
      (read_pages env s texts start).reader.is_playing = false ∧
      1 ≤ (read_pages env s texts start).reader.current_page ∧
      (read_pages env s texts start).reader.current_page ≤ (texts.length : Int) + 1) := by
  refine ⟨?_, ?_, ?_, ?_, ?_⟩
  · intro s n _ h1 h2
    unfold update_page
    split
    · rename_i hin
      simp only [AudiobookState.set_page]
      exact ⟨hin.1, hin.2⟩
    · exact ⟨h1, h2⟩
  · intro s
    exact ⟨rfl, rfl⟩
  · intro s pages hne
    obtain ⟨htot, hcur, _⟩ := handle_file_upload_pages s pages
    rw [htot, hcur]
    have hl : 0 < pages.length := List.length_pos.mpr hne
    split
    · rename_i hin
      exact ⟨hin.1, hin.2⟩
    · constructor
      · omega
      · omega
  · intro fuel s h1 h2
    unfold playAction
    split
    · exact ⟨h1, h2⟩
    · exact playCurrentPage_inv fuel _
        (by simp [AudiobookState.set_page]; omega)
        (by simp [AudiobookState.set_page]; omega)
  · intro env s texts start hc h1 h2
    exact read_pages_end env s texts start hc h1 h2

/-- Witness for the amended C1 at concrete inputs: an out-of-range
navigation on the loaded 3-page state keeps the page in range, and the
sentinel-free two-page run ends with `playing = false` and the pointer at
`total_pages + 1 = 3`. -/
theorem C1_amended_invariant_witness :
    (1 ≤ (update_page demoAppState 9).current_page ∧
      (update_page demoAppState 9).current_page ≤ (update_page demoAppState 9).total_pages) ∧
    ((read_pages okEnv (RState.fresh []) ["Alpha.", "Beta."] 1).reader.is_playing = false ∧
      1 ≤ (read_pages okEnv (RState.fresh []) ["Alpha.", "Beta."] 1).reader.current_page ∧
      (read_pages okEnv (RState.fresh []) ["Alpha.", "Beta."] 1).reader.current_page ≤
        ((["Alpha.", "Beta."] : List String).length : Int) + 1) :=
  ⟨C1_amended_invariant.1 demoAppState 9 (by decide) (by decide) (by decide),
   C1_amended_invariant.2.2.2.2 okEnv (RState.fresh []) ["Alpha.", "Beta."] 1
     rfl (by decide) (by decide)⟩

theorem readLoop_pause_one (env : Env) (texts : List String) (fuel : Nat) (s : RState)
    (hplay : s.reader.is_playing = true)
    (hle : s.reader.current_page ≤ (texts.length : Int))
    (t : String) (htx : pyIndex texts (s.reader.current_page - 1) = some t)
    (hne : t ≠ "") (hns : ¬ pyStartsWith t "[No text found")
    (he : s.reader.engine.isNone = false)
    (hok : env.sayOk s.sayIdx = true)
    (hpause : env.pauseDuring s.sayIdx = true) :
    readLoop env texts (fuel + 1) s =
      advancePage (sayStep env (noticed s (Event.readNotice s.reader.current_page)) t).2 := by
  rw [readLoop_step_speak env texts fuel s hplay hle t htx hne hns
      (by rw [read_text_say_ok env (noticed s (Event.readNotice s.reader.current_page)) t
                he hne hok])]
  rw [read_text_say_ok env (noticed s (Event.readNotice s.reader.current_page)) t he hne hok]
  exact readLoop_not_playing env texts fuel _
    (by rw [advancePage_playing]
        exact sayStep_paused env (noticed s (Event.readNotice s.reader.current_page)) t hpause)

/-- C4 fails on the page pointer: a pause arriving during the utterance of
page 1 of a two-page document leaves `playing = false` and speaks nothing
further, but the loop still advances `current_page` to 2 — past the page
that was being read. -/
theorem C4_counterexample :
    pausedRun.reader.is_playing = false ∧
    pausedRun.reader.current_page = 2 ∧
    ¬ (pausedRun.reader.current_page ≤ 1) ∧
    sayCount pausedRun.trace = 1 := by
  refine ⟨rfl, rfl, by decide, rfl⟩

/-- C4 amended: `pause()` during the in-progress utterance of the current
page leaves `playing = false` and makes exactly one synthesis call — no
later page is read — but `current_page` is still incremented once, ending
at (page being read) + 1 rather than on that page. -/
theorem C4_amended_pause (env : Env) (s : RState) (texts : List String) (start : Int)
    (t : String)
    (hc : s.crashed = false)
    (he : s.reader.engine.isNone = false)
    (h1 : 1 ≤ start) (h2 : start ≤ (texts.length : Int))
    (htx : pyIndex texts (start - 1) = some t)
    (hne : t ≠ "") (hns : ¬ pyStartsWith t "[No text found")
    (hok : env.sayOk s.sayIdx = true)
    (hpause : env.pauseDuring s.sayIdx = true) :
    (read_pages env s texts start).reader.is_playing = false ∧
    (read_pages env s texts start).reader.current_page = start + 1 ∧
    sayCount (read_pages env s texts start).trace = sayCount s.trace + 1 := by
  have hisEmpty : texts.isEmpty = false := by
    cases texts
    · simp at h2; omega
    · rfl
  rw [read_pages, hisEmpty]
  simp only [Bool.false_eq_true, if_false]
  rw [readLoop_pause_one env texts texts.length
      { s with reader := { s.reader with is_playing := true, current_page := start } }
      rfl h2 t htx hne hns he hok hpause]
  rw [if_neg (by simp only [advancePage_crashed, sayStep_crashed, noticed_crashed]; simp [hc])]
  split
  · refine ⟨rfl, ?_, ?_⟩
    · simp only [advancePage_page, sayStep_page, noticed_reader]
    · simp only [advancePage_trace, sayStep_trace, noticed_trace, sayCount_append,
        sayCount, List.filter]
      simp
  · refine ⟨rfl, ?_, ?_⟩
    · simp only [advancePage_page, sayStep_page, noticed_reader]
    · simp only [advancePage_trace, sayStep_trace, noticed_trace, sayCount_append,
        sayCount, List.filter]
      simp

/-- Witness for the amended C4: the concrete paused two-page run makes one
synthesis call, ends paused, and ends on page 2. -/
theorem C4_amended_pause_witness :
    pausedRun.reader.is_playing = false ∧
    pausedRun.reader.current_page = 1 + 1 ∧
    sayCount pausedRun.trace = sayCount (RState.fresh []).trace + 1 :=
  C4_amended_pause pauseEnv (RState.fresh []) ["First page.", "Second page."] 1
    "First page." rfl rfl (by decide) (by decide) (by decide) (by decide) (by decide)
    rfl rfl

theorem readLoop_fail_abandon (env : Env) (texts : List String) (fuel : Nat) (s : RState)
    (hplay : s.reader.is_playing = true)
    (hle : s.reader.current_page ≤ (texts.length : Int))
    (t : String) (htx : pyIndex texts (s.reader.current_page - 1) = some t)
    (hne : t ≠ "") (hns : ¬ pyStartsWith t "[No text found")
    (he : s.reader.engine.isNone = false)
    (hfail : env.sayOk s.sayIdx = false)
    (hwin1 : env.recTime s.recIdx - s.reader.last_error_time < 60)
    (hwin2 : env.recTime (s.recIdx + 1) - s.reader.last_error_time < 60)
    (hatt : 3 ≤ s.reader.recovery_attempts) :
    readLoop env texts (fuel + 1) s =
      (recoverStep env
        (read_text env (noticed s (Event.readNotice s.reader.current_page)) t).2).2 := by
  have hwin1' : env.recTime
        (sayStep env (noticed s (Event.readNotice s.reader.current_page)) t).2.recIdx -
      (sayStep env (noticed s (Event.readNotice s.reader.current_page)) t).2.reader.last_error_time
        < 60 := by
    rw [sayStep_recIdx, noticed_recIdx, sayStep_let, noticed_reader]
    exact hwin1
  have hcap1 : (sayStep env (noticed s
        (Event.readNotice s.reader.current_page)) t).2.reader.recovery_attempts + 1 > 3 := by
    rw [sayStep_attempts, noticed_reader]
    omega
  have hrecfail1 : (recoverStep env
      (sayStep env (noticed s (Event.readNotice s.reader.current_page)) t).2).1 = false := by
    rw [recoverStep_fst, recover_playback_abandon _ _ _ hwin1' hcap1]
  have hrt2 : (read_text env (noticed s (Event.readNotice s.reader.current_page)) t).2 =
      (recoverStep env
        (sayStep env (noticed s (Event.readNotice s.reader.current_page)) t).2).2 := by
    rw [read_text_fail_eq env (noticed s (Event.readNotice s.reader.current_page)) t
      he hne hfail hrecfail1]
  have hXlet : (recoverStep env
      (sayStep env (noticed s (Event.readNotice s.reader.current_page)) t).2).2.reader.last_error_time
        = s.reader.last_error_time := by
    rw [recoverStep_abandon_let env _ hwin1' hcap1, sayStep_let, noticed_reader]
  have hXatt : (recoverStep env
      (sayStep env (noticed s (Event.readNotice s.reader.current_page)) t).2).2.reader.recovery_attempts
        = s.reader.recovery_attempts + 1 := by
    rw [recoverStep_abandon_attempts env _ hwin1' hcap1, sayStep_attempts, noticed_reader]
  have hfail_loop : (read_text env (noticed s (Event.readNotice s.reader.current_page)) t).1
      = false := by
    rw [read_text_fail_eq env (noticed s (Event.readNotice s.reader.current_page)) t
      he hne hfail hrecfail1]
  have hw2 : env.recTime (recoverStep env
        (sayStep env (noticed s (Event.readNotice s.reader.current_page)) t).2).2.recIdx -
      (recoverStep env
        (sayStep env (noticed s (Event.readNotice s.reader.current_page)) t).2).2.reader.last_error_time
        < 60 := by
    rw [recoverStep_recIdx, sayStep_recIdx, noticed_recIdx, hXlet]
    exact hwin2
  have hc2 : (recoverStep env
      (sayStep env (noticed s (Event.readNotice s.reader.current_page)) t).2).2.reader.recovery_attempts
        + 1 > 3 := by
    rw [hXatt]
    omega
  have hrec2 : (recoverStep env
      (read_text env (noticed s (Event.readNotice s.reader.current_page)) t).2).1 = false := by
    rw [hrt2, recoverStep_fst, recover_playback_abandon _ _ _ hw2 hc2]
  exact readLoop_step_fail env texts fuel s hplay hle t htx hne hns hfail_loop hrec2

/-- C3 fails at the ceiling boundary: a reader whose last error was 30
seconds ago and whose attempt counter stands at 2 makes its third recovery
attempt within the 60-second window — the count reaches the claimed
ceiling of 3 — yet `recover_playback` still succeeds (playback resumes)
instead of abandoning recovery. -/
theorem C3_counterexample :
    (nearCeilReader.recover_playback 130 true).1 = true ∧
    (nearCeilReader.recover_playback 130 true).2.recovery_attempts = 3 ∧
    (130 : Int) - nearCeilReader.last_error_time < 60 := by
  refine ⟨rfl, rfl, by decide⟩

/-- C3 amended: recovery is abandoned exactly when the incremented attempt
count within the 60-second window exceeds 3 (the 4th in-window attempt
onward), returning failure without touching the engine or the error
timestamp; at or below that cap the recovery outcome is the
re-initialization outcome.  After a synthesis failure with a successful
recovery, `read_text` retries the very same text (playback resumes from
the same page).  When the cap is already exhausted, a synthesis failure
makes both recovery attempts abandon, and the loop stops on the failed
page with `playing = false`. -/
theorem C3_amended_recovery :
    (∀ (r : AudioReader) (now : Int) (initOk : Bool),
      now - r.last_error_time < 60 → r.recovery_attempts + 1 > 3 →
      r.recover_playback now initOk =
        (false, { r with recovery_attempts := r.recovery_attempts + 1 })) ∧
    (∀ (r : AudioReader) (now : Int) (initOk : Bool),
      (now - r.last_error_time < 60 → r.recovery_attempts + 1 ≤ 3) →
      (r.recover_playback now initOk).1 = initOk) ∧
    (∀ (env : Env) (s : RState) (text : String),
      s.reader.engine.isNone = false → text ≠ "" →
      env.sayOk s.sayIdx = false → env.sayOk (s.sayIdx + 1) = true →
      (env.recTime s.recIdx - s.reader.last_error_time < 60 →
        s.reader.recovery_attempts + 1 ≤ 3) →
      env.initOk s.initIdx = true →
      (read_text env s text).1 = true ∧
      (read_text env s text).2.trace =
        s.trace ++ [Event.sayAttempt text, Event.recoverTry, Event.sayAttempt text]) ∧
    (∀ (s : RState) (texts : List String) (start : Int) (t : String),
      s.crashed = false → s.reader.engine.isNone = false →
      s.reader.last_error_time = 0 → 3 ≤ s.reader.recovery_attempts →
      1 ≤ start → start ≤ (texts.length : Int) →
      pyIndex texts (start - 1) = some t → t ≠ "" →
      ¬ pyStartsWith t "[No text found" →
      (read_pages ceilEnv s texts start).reader.is_playing = false ∧
      (read_pages ceilEnv s texts start).reader.current_page = start) := by
  refine ⟨?_, ?_, ?_, ?_⟩
  · intro r now initOk hwin hcap
    exact recover_playback_abandon r now initOk hwin hcap
  · intro r now initOk h
    exact recover_playback_fst r now initOk h
  · intro env s text he hne hfail hok2 hwin hinit
    have hfail1 : (sayStep env s text).1 = false := by
      rw [sayStep_fst]
      exact hfail
    have hrec : (recoverStep env (sayStep env s text).2).1 = true := by
      rw [recoverStep_fst, recover_playback_fst]
      · exact hinit
      · rw [sayStep_recIdx, sayStep_let, sayStep_attempts]
        exact hwin
    have hrteq := read_text_retry_ok env s text he hne hfail hrec
    constructor
    · rw [hrteq, sayStep_fst]
      exact hok2
    · rw [hrteq, sayStep_trace, recoverStep_trace, sayStep_trace]
      simp [List.append_assoc]
  · intro s texts start t hc he hlet hatt h1 h2 htx hne hns
    have hisEmpty : texts.isEmpty = false := by
      cases texts
      · simp at h2; omega
      · rfl
    rw [read_pages, hisEmpty]
    simp only [Bool.false_eq_true, if_false]
    rw [readLoop_fail_abandon ceilEnv texts texts.length
        { s with reader := { s.reader with is_playing := true, current_page := start } }
        rfl h2 t htx hne hns he rfl
        (show (0 : Int) - s.reader.last_error_time < 60 by omega)
        (show (0 : Int) - s.reader.last_error_time < 60 by omega)
        hatt]
    rw [if_neg (by
      simp only [recoverStep_crashed, read_text_crashed, noticed_crashed]
      simp [hc])]
    rw [if_neg (by
      simp only [recoverStep_page, read_text_page, noticed_reader]
      omega)]
    refine ⟨rfl, ?_⟩
    simp only [recoverStep_page, read_text_page, noticed_reader]

/-- Witness for the amended C3 at concrete inputs: the 4th in-window
attempt is abandoned; a fresh reader's recovery succeeds; a single
synthesis failure with successful recovery retries the same text; and a
reader with its attempts exhausted stops on the failed page, paused. -/
theorem C3_amended_recovery_witness :
    (ceilReader4.recover_playback 130 true =
      (false, { ceilReader4 with recovery_attempts := ceilReader4.recovery_attempts + 1 })) ∧
    (((AudioReader.fresh []).recover_playback 100 true).1 = true) ∧
    ((read_text retryEnv (RState.fresh []) "Hello.").1 = true ∧
      (read_text retryEnv (RState.fresh []) "Hello.").2.trace =
        (RState.fresh []).trace ++
          [Event.sayAttempt "Hello.", Event.recoverTry, Event.sayAttempt "Hello."]) ∧
    ((read_pages ceilEnv atCeilState ["Alpha.", "Beta."] 1).reader.is_playing = false ∧
      (read_pages ceilEnv atCeilState ["Alpha.", "Beta."] 1).reader.current_page = 1) :=
  ⟨C3_amended_recovery.1 ceilReader4 130 true (by decide) (by decide),
   C3_amended_recovery.2.1 (AudioReader.fresh []) 100 true (fun _ => by decide),
   C3_amended_recovery.2.2.1 retryEnv (RState.fresh []) "Hello." rfl (by decide)
     rfl rfl (fun _ => by decide) rfl,
   C3_amended_recovery.2.2.2 atCeilState ["Alpha.", "Beta."] 1 "Alpha."
     rfl rfl rfl (by decide) (by decide) (by decide) (by decide) (by decide) (by decide)⟩

theorem dropWhileOver_suffix (limit : ℚ) :
    ∀ (total : ℚ) (l : List CacheFile), (dropWhileOver limit total l).IsSuffix l := by
  intro total l
  induction l generalizing total with
  | nil => simp [dropWhileOver]
  | cons f rest ih =>
    rw [dropWhileOver]
    split
    · exact List.suffix_refl _
    · exact (ih _).trans (List.suffix_cons f rest)

theorem dropWhileOver_total (limit : ℚ) :
    ∀ (total : ℚ) (l : List CacheFile),
      dropWhileOver limit total l = [] ∨
      total - (((l.map (fun f => f.sizeMB)).sum) -
        (((dropWhileOver limit total l).map (fun f => f.sizeMB)).sum)) ≤ limit := by
  intro total l
  induction l generalizing total with
  | nil => left; rfl
  | cons f rest ih =>
    rw [dropWhileOver]
    split
    · rename_i hstop
      right
      simpa using hstop
    · rcases ih (total - f.sizeMB) with h | h
      · left; exact h
      · right
        have hsum : ((f :: rest).map (fun f => f.sizeMB)).sum =
            f.sizeMB + (rest.map (fun f => f.sizeMB)).sum := by simp
        rw [hsum]
        linarith

/-- C8 fails because the size pass works with a stale total: with a
600 MB file 10 days old and a fresh 10 MB file, at `now` = 10 days, the
age pass deletes the old file, but the accumulated total (610 MB) still
counts it, so the young file — although it is not old and the cache left
after the age deletions holds only 10 MB ≤ 500 MB — is deleted too,
leaving the cache empty where the claim says exactly the old file is
deleted. -/
theorem C8_counterexample :
    cleanup_cache [oldBig, newSmall] 864000 = [] ∧
    isOld 864000 oldBig = true ∧
    isOld 864000 newSmall = false ∧
    ((([oldBig, newSmall].filter (fun f => !(isOld 864000 f))).map
        (fun f => f.sizeMB)).sum ≤ MAX_CACHE_SIZE_MB) := by
  refine ⟨?_, ?_, ?_, ?_⟩
  · norm_num [cleanup_cache, isOld, oldBig, newSmall, CACHE_CLEANUP_DAYS,
      MAX_CACHE_SIZE_MB, List.insertionSort, List.orderedInsert, dropWhileOver, List.filter]
  · norm_num [isOld, oldBig, CACHE_CLEANUP_DAYS]
  · norm_num [isOld, newSmall, CACHE_CLEANUP_DAYS]
  · norm_num [isOld, oldBig, newSmall, CACHE_CLEANUP_DAYS, MAX_CACHE_SIZE_MB, List.filter]

/-- C8 amended: cleanup deletes every file older than
`CACHE_CLEANUP_DAYS` and keeps only non-old files; when the total size of
all files present before cleanup — including the ones just deleted for
age — is at or below `MAX_CACHE_SIZE_MB`, exactly the old files are
deleted; when that stale total exceeds the ceiling, remaining files are
deleted oldest first until the running total (which still counts the
age-deleted files) is at or below the ceiling, or no file is left. -/
theorem C8_amended_cleanup :
    (∀ (files : List CacheFile) (now : ℚ) (f : CacheFile),
      f ∈ cleanup_cache files now → isOld now f = false) ∧
    (∀ (files : List CacheFile) (now : ℚ),
      (files.map (fun f => f.sizeMB)).sum ≤ MAX_CACHE_SIZE_MB →
      cleanup_cache files now = files.filter (fun f => !(isOld now f))) ∧
    (∀ (files : List CacheFile) (now : ℚ),
      (files.map (fun f => f.sizeMB)).sum > MAX_CACHE_SIZE_MB →
      (cleanup_cache files now).IsSuffix
        (List.insertionSort (fun a b => a.mtime ≤ b.mtime)
          (files.filter (fun f => !(isOld now f)))) ∧
      (cleanup_cache files now = [] ∨
        (files.map (fun f => f.sizeMB)).sum -
          ((((List.insertionSort (fun a b => a.mtime ≤ b.mtime)
              (files.filter (fun f => !(isOld now f)))).map (fun f => f.sizeMB)).sum) -
            (((cleanup_cache files now).map (fun f => f.sizeMB)).sum)) ≤
          MAX_CACHE_SIZE_MB)) := by
  have hover : ∀ (files : List CacheFile) (now : ℚ),
      (files.map (fun f => f.sizeMB)).sum > MAX_CACHE_SIZE_MB →
      cleanup_cache files now =
        dropWhileOver MAX_CACHE_SIZE_MB ((files.map (fun f => f.sizeMB)).sum)
          (List.insertionSort (fun a b => a.mtime ≤ b.mtime)
            (files.filter (fun f => !(isOld now f)))) := by
    intro files now h
    unfold cleanup_cache
    rw [if_pos h]
  have hunder : ∀ (files : List CacheFile) (now : ℚ),
      (files.map (fun f => f.sizeMB)).sum ≤ MAX_CACHE_SIZE_MB →
      cleanup_cache files now = files.filter (fun f => !(isOld now f)) := by
    intro files now h
    unfold cleanup_cache
    rw [if_neg (not_lt.mpr h)]
  refine ⟨?_, hunder, ?_⟩
  · intro files now f hf
    by_cases h : (files.map (fun f => f.sizeMB)).sum > MAX_CACHE_SIZE_MB
    · rw [hover files now h] at hf
      have h1 : f ∈ List.insertionSort (fun a b => a.mtime ≤ b.mtime)
          (files.filter (fun f => !(isOld now f))) :=
        (dropWhileOver_suffix _ _ _).subset hf
      have h2 : f ∈ files.filter (fun f => !(isOld now f)) :=
        (List.perm_insertionSort (fun a b => a.mtime ≤ b.mtime) _).subset h1
      have h3 := (List.mem_filter.mp h2).2
      simpa using h3
    · rw [hunder files now (not_lt.mp h)] at hf
      have h3 := (List.mem_filter.mp hf).2
      simpa using h3
  · intro files now h
    rw [hover files now h]
    exact ⟨dropWhileOver_suffix _ _ _, dropWhileOver_total _ _ _⟩

/-- Witness for the amended C8: on the two-file counterexample cache the
result is a suffix of the sorted young files and the running total ends at
or below the ceiling; on a single fresh small file nothing is deleted. -/
theorem C8_amended_cleanup_witness :
    (isOld 864000 newSmall = false) ∧
    (cleanup_cache [newSmall] 864000 = [newSmall].filter (fun f => !(isOld 864000 f))) ∧
    ((cleanup_cache [oldBig, newSmall] 864000).IsSuffix
      (List.insertionSort (fun a b => a.mtime ≤ b.mtime)
        ([oldBig, newSmall].filter (fun f => !(isOld 864000 f))))) :=
  ⟨by norm_num [isOld, newSmall, CACHE_CLEANUP_DAYS],
   C8_amended_cleanup.2.1 [newSmall] 864000
     (by norm_num [newSmall, MAX_CACHE_SIZE_MB]),
   (C8_amended_cleanup.2.2 [oldBig, newSmall] 864000
     (by norm_num [oldBig, newSmall, MAX_CACHE_SIZE_MB])).1⟩

end PDFAudio
